import Mathlib

/-! Verification of the email protocol client core of `mcp-email-server`.

The data model (`EmailData`, `EmailPageResponse`, `FolderInfo`,
`EmailOperationResult`) is embedded from
`src/mcp_email_server/emails/models.py`.  The protocol-orchestration
operations (`copy_emails`, `move_emails`, `_move_single_email`,
`list_folders`, `create_folder`, the `get_emails` of the handler) live in
`mcp_email_server/emails/classic.py`, which is not present under `src/`
(only its tests and the abstract `EmailHandler` interface are); those
operations are modelled from the specification, as marked in their doc
comments.  The Transport Session is modelled as a pure behavior
(`ServerBehavior`) assigning every protocol command a reply outcome, and
each operation additionally returns the trace of protocol commands it
issued, so that session-lifecycle and ordering properties are statable.
-/

/-- Reply outcome of a single protocol command: the server answered with
the accepted status token (`ok`), with a rejection token (`no`), or the
command raised an exception in the transport library (`raised`). -/
inductive CmdResult
  | ok
  | no
  | raised
deriving DecidableEq

/-- Protocol commands issued against the Transport Session, recorded in
operation traces.  Mirrors the capability interface of spec §6:
`login`, `select`, `list`, `create`, `uid(subcommand, ...)`, `expunge`,
`logout`. -/
inductive Cmd
  | login
  | select (mailbox : String)
  | listCmd (reference pattern : String)
  | create (name : String)
  | uidMove (uid dest : String)
  | uidCopy (uid dest : String)
  | uidStore (uid flags value : String)
  | expunge
  | logout
deriving DecidableEq

/-- Modelled from the spec: the Transport Session (external collaborator,
spec §2/§6) as a pure reply behavior.  the IMAP session object of `classic.py`
is missing from `src/`; tests drive it through mocks whose per-command
replies this structure captures: whether connecting succeeds, the reply
outcome of `login`/`select`/`create`/`list`, the reply lines of `list`,
and the per-UID reply outcome of the `uid copy`/`uid move`/`uid store`
commands. -/
structure ServerBehavior where
  connectOk : Bool
  login : CmdResult
  select : CmdResult
  create : CmdResult
  listStatus : CmdResult
  listLines : List String
  copyResp : String → CmdResult
  moveResp : String → CmdResult
  storeResp : String → CmdResult

/-- Embedded from `src/mcp_email_server/emails/models.py` (`EmailData`).
The `datetime` field is modelled as an integer timestamp. -/
structure EmailData where
  subject : String
  sender : String
  body : String
  date : Int
  attachments : List String
  uid : Option String := none
deriving DecidableEq

/-- Embedded from `src/mcp_email_server/emails/models.py`
(`EmailPageResponse`): the page response echoes `page`, `page_size`,
`before`, `since`, `subject`, `body` and `text`, and carries the page of
emails plus the total filtered count.  It has no fields for sender or
recipient filters or for the sort order. -/
structure EmailPageResponse where
  page : Nat
  page_size : Nat
  before : Option Int
  since : Option Int
  subject : Option String
  body : Option String
  text : Option String
  emails : List EmailData
  total : Nat
deriving DecidableEq

/-- Embedded from `src/mcp_email_server/emails/models.py` (`FolderInfo`). -/
structure FolderInfo where
  name : String
  delimiter : String
  flags : List String
deriving DecidableEq

/-- Embedded from `src/mcp_email_server/emails/models.py`
(`EmailOperationResult`): `moved_count`, `copied_count` default to `0`
and `failed_uids` defaults to the empty list. -/
structure EmailOperationResult where
  success : Bool
  message : String
  moved_count : Nat := 0
  copied_count : Nat := 0
  failed_uids : List String := []
deriving DecidableEq

/-- Call-aborting error taxonomy of spec §7: transport-level faults
(`connectionError`: cannot connect or authenticate) and whole-call
command rejections (`protocolError`). -/
inductive OpError
  | connectionError
  | protocolError
deriving DecidableEq

/-- Boolean test that `needle` occurs at the start of `hay`. -/
def isPrefixOfChars : List Char → List Char → Bool
  | [], _ => true
  | _ :: _, [] => false
  | a :: as, b :: bs => a = b && isPrefixOfChars as bs

/-- Boolean substring test on character lists. -/
def containsSub : List Char → List Char → Bool
  | [], needle => needle.isEmpty
  | c :: rest, needle => isPrefixOfChars needle (c :: rest) || containsSub rest needle

/-- Modelled from the spec: the summary message of `copyEmails` in the
missing `classic.py`, per spec §4.1 and the test assertions
("Successfully copied 2 emails"; "Successfully copied 1 emails, 1 failed"):
a success count, and a "<n> failed" clause when failures occurred. -/
def copyMessage (copied failedCount : Nat) : String :=
  if failedCount = 0 then "Successfully copied " ++ (toString copied ++ " emails")
  else ("Successfully copied " ++ (toString copied ++ " emails, ")) ++
    (toString failedCount ++ " failed")

/-- Modelled from the spec: the summary message of `moveEmails` in the
missing `classic.py`, analogous to `copyMessage` ("Successfully moved
2 emails", with a "<n> failed" clause when failures occurred). -/
def moveMessage (moved failedCount : Nat) : String :=
  if failedCount = 0 then "Successfully moved " ++ (toString moved ++ " emails")
  else ("Successfully moved " ++ (toString moved ++ " emails, ")) ++
    (toString failedCount ++ " failed")

/-- Modelled from the spec: the per-UID loop of `copyEmails` in the
missing `classic.py` (spec §4.1): for each UID in the given order, issue
a copy-by-UID command; a reply with the accepted token counts as copied,
anything else records the UID as failed and processing continues.
Returns (confirmed copies, failed UIDs in order, command trace). -/
def copyLoop (b : ServerBehavior) (dest : String) : List String → Nat × List String × List Cmd
  | [] => (0, [], [])
  | uid :: rest =>
    let r := copyLoop b dest rest
    if b.copyResp uid = CmdResult.ok then
      (r.1 + 1, r.2.1, Cmd.uidCopy uid dest :: r.2.2)
    else
      (r.1, uid :: r.2.1, Cmd.uidCopy uid dest :: r.2.2)

/-- Modelled from the spec: the `EmailOperationResult` assembled by
`copyEmails` in the missing `classic.py` (spec §4.1/§7): `copied_count` =
confirmed successes, `failed_uids` = the rest, `success` = no failures,
message summarizing the counts. -/
def copyRes (b : ServerBehavior) (uids : List String) (dest : String) : EmailOperationResult :=
  { success := (copyLoop b dest uids).2.1.isEmpty,
    message := copyMessage (copyLoop b dest uids).1 (copyLoop b dest uids).2.1.length,
    copied_count := (copyLoop b dest uids).1,
    failed_uids := (copyLoop b dest uids).2.1 }

/-- Modelled from the spec: `EmailClient.copy_emails` of the missing
`classic.py` (spec §4.1): open a session, login, select the source
mailbox "INBOX", issue one copy-by-UID command per UID with per-item
failure accounting, and log out on every exit path after the session is
established.  Transport-level faults (cannot connect, login rejected)
abort the call with an error; a rejected `select` aborts with a protocol
error; per-item failures never raise. -/
def copy_emails (b : ServerBehavior) (uids : List String) (dest : String) :
    Except OpError EmailOperationResult × List Cmd :=
  if b.connectOk = true then
    if b.login = CmdResult.ok then
      if b.select = CmdResult.ok then
        (Except.ok (copyRes b uids dest),
         Cmd.login :: Cmd.select "INBOX" :: ((copyLoop b dest uids).2.2 ++ [Cmd.logout]))
      else (Except.error OpError.protocolError, [Cmd.login, Cmd.select "INBOX", Cmd.logout])
    else (Except.error OpError.connectionError, [Cmd.login, Cmd.logout])
  else (Except.error OpError.connectionError, [])

/-- Modelled from the spec: `EmailClient._move_single_email` of the
missing `classic.py` (spec §4.1, and the tests of its fallback): first
attempt the atomic `uid move` command; when the server rejects or raises
on MOVE, fall back to copy-by-UID followed by storing the deletion flag
(`+FLAGS.SILENT \Deleted`) on the source copy, both scoped to that single
UID; the deletion flag is stored only when the copy was accepted.
Returns whether the UID was moved, and the commands issued for it. -/
def move_single_email (b : ServerBehavior) (uid dest : String) : Bool × List Cmd :=
  if b.moveResp uid = CmdResult.ok then
    (true, [Cmd.uidMove uid dest])
  else if b.copyResp uid = CmdResult.ok then
    (if b.storeResp uid = CmdResult.ok then true else false,
     [Cmd.uidMove uid dest, Cmd.uidCopy uid dest,
      Cmd.uidStore uid "+FLAGS.SILENT" "\\Deleted"])
  else
    (false, [Cmd.uidMove uid dest, Cmd.uidCopy uid dest])

/-- Modelled from the spec: the per-UID loop of `moveEmails` in the
missing `classic.py` (spec §4.1): each UID is handled by
`move_single_email`; a UID that fails both MOVE and the fallback counts
once as failed and processing continues.  Returns (moved count, failed
UIDs in order, command trace). -/
def moveLoop (b : ServerBehavior) (dest : String) : List String → Nat × List String × List Cmd
  | [] => (0, [], [])
  | uid :: rest =>
    let s := move_single_email b uid dest
    let r := moveLoop b dest rest
    if s.1 = true then (r.1 + 1, r.2.1, s.2 ++ r.2.2)
    else (r.1, uid :: r.2.1, s.2 ++ r.2.2)

/-- Modelled from the spec: the `EmailOperationResult` assembled by
`moveEmails` in the missing `classic.py`, aggregated identically to
`copyRes` but into `moved_count`. -/
def moveRes (b : ServerBehavior) (uids : List String) (dest : String) : EmailOperationResult :=
  { success := (moveLoop b dest uids).2.1.isEmpty,
    message := moveMessage (moveLoop b dest uids).1 (moveLoop b dest uids).2.1.length,
    moved_count := (moveLoop b dest uids).1,
    failed_uids := (moveLoop b dest uids).2.1 }

/-- Modelled from the spec: `EmailClient.move_emails` of the missing
`classic.py` (spec §4.1): open a session, login, select "INBOX", process
every UID through `move_single_email`, then issue exactly one `expunge`
after all UIDs are processed (always, even when every UID used native
MOVE), and log out on every exit path after the session is established. -/
def move_emails (b : ServerBehavior) (uids : List String) (dest : String) :
    Except OpError EmailOperationResult × List Cmd :=
  if b.connectOk = true then
    if b.login = CmdResult.ok then
      if b.select = CmdResult.ok then
        (Except.ok (moveRes b uids dest),
         Cmd.login :: Cmd.select "INBOX" ::
           ((moveLoop b dest uids).2.2 ++ [Cmd.expunge, Cmd.logout]))
      else (Except.error OpError.protocolError, [Cmd.login, Cmd.select "INBOX", Cmd.logout])
    else (Except.error OpError.connectionError, [Cmd.login, Cmd.logout])
  else (Except.error OpError.connectionError, [])

/-- Modelled from the spec: `EmailClient.create_folder` of the missing
`classic.py` (spec §4.1/§7): open a session, issue a create command,
inspect the reply status token; an accepted reply yields `true`, a
rejected reply yields `false` (a normal outcome, not an error); a
raising create surfaces as a call-level error; the session is logged out
regardless of outcome. -/
def create_folder (b : ServerBehavior) (name : String) : Except OpError Bool × List Cmd :=
  if b.connectOk = true then
    if b.login = CmdResult.ok then
      if b.create = CmdResult.ok then
        (Except.ok true, [Cmd.login, Cmd.create name, Cmd.logout])
      else if b.create = CmdResult.no then
        (Except.ok false, [Cmd.login, Cmd.create name, Cmd.logout])
      else (Except.error OpError.protocolError, [Cmd.login, Cmd.create name, Cmd.logout])
    else (Except.error OpError.connectionError, [Cmd.login, Cmd.logout])
  else (Except.error OpError.connectionError, [])

/-- Double-quote character, written by code point. -/
def quoteChar : Char := Char.ofNat 34

/-- Backslash character, written by code point. -/
def backslashChar : Char := Char.ofNat 92

/-- Characters between the first '(' and the following ')'. -/
def parenContent (l : List Char) : List Char :=
  ((l.dropWhile (fun c => c ≠ '(')).drop 1).takeWhile (fun c => c ≠ ')')

/-- Space-separated words of a character list (accumulator-passing). -/
def splitWords (acc : List Char) : List Char → List (List Char)
  | [] => if acc.isEmpty then [] else [acc.reverse]
  | c :: rest =>
    if c = ' ' then
      if acc.isEmpty then splitWords [] rest else acc.reverse :: splitWords [] rest
    else splitWords (c :: acc) rest

/-- Drop one leading backslash from a flag token. -/
def stripFlag : List Char → List Char
  | [] => []
  | c :: cs => if c = backslashChar then cs else c :: cs

/-- Substrings enclosed in double quotes, in order.  The first argument
tells whether we are currently inside a quoted segment, the second
accumulates the current segment. -/
def quotedAux : Bool → List Char → List Char → List (List Char)
  | _, _, [] => []
  | false, _, c :: rest =>
    if c = quoteChar then quotedAux true [] rest else quotedAux false [] rest
  | true, acc, c :: rest =>
    if c = quoteChar then acc.reverse :: quotedAux false [] rest
    else quotedAux true (c :: acc) rest

/-- Substrings of `l` enclosed in double quotes, in order. -/
def quotedSegs (l : List Char) : List (List Char) := quotedAux false [] l

/-- Modelled from the spec: the reply-line parser of
`EmailClient.list_folders` in the missing `classic.py` (spec §4.1):
each structured reply line of the form `(\Flag ...) "<delim>" "<name>"`
becomes a `FolderInfo` with the name unquoted, the delimiter taken from
its quotes, and the flag tokens extracted from the parenthesised group
with their leading backslash removed. -/
def parseListLine (line : String) : Option FolderInfo :=
  let cs := line.data
  let flags := (splitWords [] (parenContent cs)).map (fun w => String.mk (stripFlag w))
  let rest := (cs.dropWhile (fun c => c ≠ ')')).drop 1
  match quotedSegs rest with
  | [d, n] => some { name := String.mk n, delimiter := String.mk d, flags := flags }
  | _ => none

/-- Modelled from the spec: `EmailClient.list_folders` of the missing
`classic.py` (spec §4.1): open a session, issue a folder-list query
against the root (`list "" "*"`), parse each reply line into a
`FolderInfo`, close the session, return the ordered sequence; a rejected
login or list command aborts the call with an error, with the session
still logged out. -/
def list_folders (b : ServerBehavior) : Except OpError (List FolderInfo) × List Cmd :=
  if b.connectOk = true then
    if b.login = CmdResult.ok then
      if b.listStatus = CmdResult.ok then
        (Except.ok (b.listLines.filterMap parseListLine),
         [Cmd.login, Cmd.listCmd "" "*", Cmd.logout])
      else (Except.error OpError.protocolError, [Cmd.login, Cmd.listCmd "" "*", Cmd.logout])
    else (Except.error OpError.connectionError, [Cmd.login, Cmd.logout])
  else (Except.error OpError.connectionError, [])

/-- Folder list carried by a successful `list_folders` reply. -/
def foldersOf (x : Except OpError (List FolderInfo)) : List FolderInfo :=
  match x with
  | Except.ok l => l
  | Except.error _ => []

/-- Modelled from the spec: the query parameters of the handler method
`get_emails` in the missing `classic.py` (spec §3 `PageQuery` and the
`EmailHandler.get_emails` signature of `src/mcp_email_server/emails/__init__.py`):
1-based page number, page size, optional before/after timestamp bounds,
optional substring filters on subject/body/full-text, optional
sender/recipient filters, and sort order ("asc"/"desc", default "desc"). -/
structure PageQuery where
  page : Nat := 1
  page_size : Nat := 10
  before : Option Int := none
  after : Option Int := none
  subject : Option String := none
  body : Option String := none
  text : Option String := none
  from_address : Option String := none
  to_address : Option String := none
  order : String := "desc"
deriving DecidableEq

/-- Modelled from the spec: the message filter of `streamMessages` in the
missing `classic.py` (spec §3/§4.1): timestamp bounds, substring filters
on subject/body/full-text, and the sender filter against the sender
address.  The recipient filter is a server-side search criterion and
`EmailData` records no recipients, so it does not constrain the data
model. -/
def matchesFilter (q : PageQuery) (e : EmailData) : Bool :=
  (match q.before with
   | none => true
   | some t => decide (e.date < t)) &&
  (match q.after with
   | none => true
   | some t => decide (t ≤ e.date)) &&
  (match q.subject with
   | none => true
   | some s => containsSub e.subject.data s.data) &&
  (match q.body with
   | none => true
   | some s => containsSub e.body.data s.data) &&
  (match q.text with
   | none => true
   | some s => containsSub e.subject.data s.data || containsSub e.body.data s.data) &&
  (match q.from_address with
   | none => true
   | some s => containsSub e.sender.data s.data)

/-- Insert an email into a date-sorted list (ascending when `asc`). -/
def insertByDate (asc : Bool) (e : EmailData) : List EmailData → List EmailData
  | [] => [e]
  | x :: xs =>
    if (if asc then decide (e.date ≤ x.date) else decide (x.date ≤ e.date)) = true
    then e :: x :: xs
    else x :: insertByDate asc e xs

/-- Insertion sort of emails by date, ascending when `asc`. -/
def sortByDate (asc : Bool) (l : List EmailData) : List EmailData :=
  List.foldr (insertByDate asc) [] l

/-- Modelled from the spec: `streamMessages` of the missing `classic.py`
(spec §4.1): the candidates matching the filters of the query, in the
requested sort order, produced from the backing mailbox `store`. -/
def streamMessages (store : List EmailData) (q : PageQuery) : List EmailData :=
  sortByDate (decide (q.order = "asc")) (List.filter (matchesFilter q) store)

/-- Modelled from the spec: the handler method `get_emails` of the missing
`classic.py` (spec §4.2): drive `streamMessages`, skip
`(page-1)*page_size` earlier matches, collect up to `page_size` items,
take the total from the count of all matches, and assemble an
`EmailPageResponse` (the model of `src/mcp_email_server/emails/models.py`,
whose `since` field carries the `after` bound). -/
def get_emails (store : List EmailData) (q : PageQuery) : EmailPageResponse :=
  { page := q.page,
    page_size := q.page_size,
    before := q.before,
    since := q.after,
    subject := q.subject,
    body := q.body,
    text := q.text,
    emails := List.take q.page_size (List.drop ((q.page - 1) * q.page_size) (streamMessages store q)),
    total := (streamMessages store q).length }

/-- Server behavior in which every command is accepted (the happy path of
the tests). -/
def sampleBehavior : ServerBehavior :=
  { connectOk := true, login := CmdResult.ok, select := CmdResult.ok,
    create := CmdResult.ok, listStatus := CmdResult.ok, listLines := [],
    copyResp := fun _ => CmdResult.ok, moveResp := fun _ => CmdResult.ok,
    storeResp := fun _ => CmdResult.ok }

/-- Server behavior of the partial-failure tests: UID "456" is rejected
on copy, raises on MOVE and is rejected on store, every other UID is
accepted; folder creation is rejected. -/
def partialBehavior : ServerBehavior :=
  { connectOk := true, login := CmdResult.ok, select := CmdResult.ok,
    create := CmdResult.no, listStatus := CmdResult.ok, listLines := [],
    copyResp := fun u => if u = "456" then CmdResult.no else CmdResult.ok,
    moveResp := fun u => if u = "456" then CmdResult.raised else CmdResult.ok,
    storeResp := fun u => if u = "456" then CmdResult.no else CmdResult.ok }

/-- Server behavior of the fallback tests: MOVE raises for every UID
("MOVE not supported"), copy and store are accepted. -/
def fallbackBehavior : ServerBehavior :=
  { connectOk := true, login := CmdResult.ok, select := CmdResult.ok,
    create := CmdResult.ok, listStatus := CmdResult.ok, listLines := [],
    copyResp := fun _ => CmdResult.ok, moveResp := fun _ => CmdResult.raised,
    storeResp := fun _ => CmdResult.ok }

/-- Server behavior replying to `list` with the two reply lines of the
parsing example of the spec. -/
def sampleListBehavior : ServerBehavior :=
  { connectOk := true, login := CmdResult.ok, select := CmdResult.ok,
    create := CmdResult.ok, listStatus := CmdResult.ok,
    listLines := ["(\\HasNoChildren) \".\" \"INBOX\"", "(\\HasNoChildren) \".\" \"INBOX.Sent\""],
    copyResp := fun _ => CmdResult.ok, moveResp := fun _ => CmdResult.ok,
    storeResp := fun _ => CmdResult.ok }

/-- UID an issued command is scoped to, when it is a per-UID command. -/
def cmdUid : Cmd → Option String
  | Cmd.uidMove u _ => some u
  | Cmd.uidCopy u _ => some u
  | Cmd.uidStore u _ _ => some u
  | _ => none

/-- Empty folder record used as a lookup fallback. -/
def emptyFolder : FolderInfo := { name := "", delimiter := "", flags := [] }

/-- Sample email of the integration tests. -/
def sampleEmailA : EmailData :=
  { subject := "Important Email 1", sender := "boss@company.com",
    body := "This is an important email that needs to be archived.",
    date := 100, attachments := [], uid := some "12345" }

/-- Second sample email of the integration tests. -/
def sampleEmailB : EmailData :=
  { subject := "Important Email 2", sender := "client@business.com",
    body := "Another important email for archiving.",
    date := 200, attachments := [], uid := some "12346" }

/-- Backing mailbox of the integration tests. -/
def sampleStore : List EmailData := [sampleEmailA, sampleEmailB]

/-- Query with every parameter at its default (page 1, page size 10). -/
def defaultQuery : PageQuery := {}

/-- Ascending-order query with every other parameter at its default. -/
def qAsc : PageQuery := { order := "asc" }

/-- Descending-order query with every other parameter at its default. -/
def qDesc : PageQuery := { order := "desc" }

theorem copyLoop_count (b : ServerBehavior) (dest : String) (uids : List String) :
    (copyLoop b dest uids).1 + (copyLoop b dest uids).2.1.length = uids.length := by
  induction uids with
  | nil => rfl
  | cons uid rest ih =>
    by_cases h : b.copyResp uid = CmdResult.ok <;> simp [copyLoop, h] <;> omega

theorem copyLoop_copied_filter (b : ServerBehavior) (dest : String) (uids : List String) :
    (copyLoop b dest uids).1 =
      (List.filter (fun u => decide (b.copyResp u = CmdResult.ok)) uids).length := by
  induction uids with
  | nil => rfl
  | cons uid rest ih =>
    by_cases h : b.copyResp uid = CmdResult.ok
    · simp [copyLoop, h, List.filter_cons, ih]
    · simp [copyLoop, h, List.filter_cons, ih]

theorem copyLoop_failed_mem (b : ServerBehavior) (dest : String) (uid : String)
    (uids : List String) (hmem : uid ∈ uids) (hfail : b.copyResp uid ≠ CmdResult.ok) :
    uid ∈ (copyLoop b dest uids).2.1 := by
  induction uids with
  | nil => cases hmem
  | cons x rest ih =>
    rcases List.mem_cons.mp hmem with h | h
    · subst h
      simp [copyLoop, hfail]
    · by_cases hx : b.copyResp x = CmdResult.ok
      · simpa [copyLoop, hx] using ih h
      · simp only [copyLoop, hx, if_false, ite_false]
        exact List.mem_cons_of_mem x (ih h)

theorem moveLoop_count (b : ServerBehavior) (dest : String) (uids : List String) :
    (moveLoop b dest uids).1 + (moveLoop b dest uids).2.1.length = uids.length := by
  induction uids with
  | nil => rfl
  | cons uid rest ih =>
    by_cases h : (move_single_email b uid dest).1 = true <;> simp [moveLoop, h] <;> omega

theorem moveLoop_failed_mem (b : ServerBehavior) (dest : String) (uid : String)
    (uids : List String) (hmem : uid ∈ uids)
    (hfail : (move_single_email b uid dest).1 = false) :
    uid ∈ (moveLoop b dest uids).2.1 := by
  induction uids with
  | nil => cases hmem
  | cons x rest ih =>
    rcases List.mem_cons.mp hmem with h | h
    · subst h
      simp [moveLoop, hfail]
    · by_cases hx : (move_single_email b x dest).1 = true
      · simpa [moveLoop, hx] using ih h
      · simp only [moveLoop, hx, if_false, ite_false]
        exact List.mem_cons_of_mem x (ih h)

theorem logout_not_mem_single (b : ServerBehavior) (uid dest : String) :
    Cmd.logout ∉ (move_single_email b uid dest).2 := by
  simp only [move_single_email]
  split
  · simp
  · split <;> simp

theorem expunge_not_mem_single (b : ServerBehavior) (uid dest : String) :
    Cmd.expunge ∉ (move_single_email b uid dest).2 := by
  simp only [move_single_email]
  split
  · simp
  · split <;> simp

theorem uidMove_mem_single (b : ServerBehavior) (uid dest : String) :
    Cmd.uidMove uid dest ∈ (move_single_email b uid dest).2 := by
  simp only [move_single_email]
  split
  · simp
  · split <;> simp

theorem logout_not_mem_copyLoop (b : ServerBehavior) (dest : String) (uids : List String) :
    Cmd.logout ∉ (copyLoop b dest uids).2.2 := by
  induction uids with
  | nil => simp [copyLoop]
  | cons uid rest ih =>
    by_cases h : b.copyResp uid = CmdResult.ok <;> simp [copyLoop, h, ih]

theorem logout_not_mem_moveLoop (b : ServerBehavior) (dest : String) (uids : List String) :
    Cmd.logout ∉ (moveLoop b dest uids).2.2 := by
  induction uids with
  | nil => simp [moveLoop]
  | cons uid rest ih =>
    by_cases h : (move_single_email b uid dest).1 = true <;>
      simp [moveLoop, h, ih, logout_not_mem_single]

theorem expunge_not_mem_moveLoop (b : ServerBehavior) (dest : String) (uids : List String) :
    Cmd.expunge ∉ (moveLoop b dest uids).2.2 := by
  induction uids with
  | nil => simp [moveLoop]
  | cons uid rest ih =>
    by_cases h : (move_single_email b uid dest).1 = true <;>
      simp [moveLoop, h, ih, expunge_not_mem_single]

theorem uidMove_mem_moveLoop (b : ServerBehavior) (dest : String) (uid : String)
    (uids : List String) (hmem : uid ∈ uids) :
    Cmd.uidMove uid dest ∈ (moveLoop b dest uids).2.2 := by
  induction uids with
  | nil => cases hmem
  | cons x rest ih =>
    rcases List.mem_cons.mp hmem with h | h
    · subst h
      by_cases hx : (move_single_email b uid dest).1 = true <;>
        simp [moveLoop, hx, uidMove_mem_single]
    · by_cases hx : (move_single_email b x dest).1 = true <;>
        simp [moveLoop, hx, ih h]

theorem isPrefixOfChars_refl (l : List Char) : isPrefixOfChars l l = true := by
  induction l with
  | nil => rfl
  | cons c cs ih => simp [isPrefixOfChars, ih]

theorem containsSub_self (y : List Char) : containsSub y y = true := by
  cases y with
  | nil => rfl
  | cons c r => simp [containsSub, isPrefixOfChars_refl]

theorem containsSub_suffix (x y : List Char) : containsSub (x ++ y) y = true := by
  induction x with
  | nil => simpa using containsSub_self y
  | cons c cs ih => simp [containsSub, ih]

theorem string_data_append (s t : String) : (s ++ t).data = s.data ++ t.data := rfl

theorem copyMessage_failed_contains (c f : Nat) (h : f ≠ 0) :
    containsSub (copyMessage c f).data (toString f ++ " failed").data = true := by
  rw [copyMessage, if_neg h, string_data_append]
  exact containsSub_suffix _ _

theorem moveMessage_failed_contains (m f : Nat) (h : f ≠ 0) :
    containsSub (moveMessage m f).data (toString f ++ " failed").data = true := by
  rw [moveMessage, if_neg h, string_data_append]
  exact containsSub_suffix _ _

theorem isEmpty_false_of_mem {α : Type} {x : α} {l : List α} (h : x ∈ l) :
    l.isEmpty = false := by
  cases l with
  | nil => cases h
  | cons a as => rfl

theorem length_ne_zero_of_mem {α : Type} {x : α} {l : List α} (h : x ∈ l) :
    l.length ≠ 0 := by
  cases l with
  | nil => cases h
  | cons a as => simp

theorem length_insertByDate (asc : Bool) (e : EmailData) (l : List EmailData) :
    (insertByDate asc e l).length = l.length + 1 := by
  induction l with
  | nil => rfl
  | cons x xs ih =>
    simp only [insertByDate]
    split <;> split <;> simp [ih]

theorem length_sortByDate (asc : Bool) (l : List EmailData) :
    (sortByDate asc l).length = l.length := by
  induction l with
  | nil => rfl
  | cons x xs ih =>
    simp only [sortByDate, List.foldr_cons]
    rw [length_insertByDate]
    simp only [sortByDate] at ih
    rw [ih]
    simp

theorem length_streamMessages (store : List EmailData) (q : PageQuery) :
    (streamMessages store q).length = (List.filter (matchesFilter q) store).length := by
  simp [streamMessages, length_sortByDate]

/-- C1: for every list of UIDs passed to `copy_emails` (over any server
behavior that lets the call reach per-item processing), the returned
`EmailOperationResult` satisfies `copied_count + failed_uids.length =
uids.length`, `success` holds exactly when `failed_uids` is empty, and
`copied_count` counts exactly the per-UID copy commands the server
answered with the accepted status. -/
theorem c1_copy_count_invariant (b : ServerBehavior) (uids : List String) (dest : String)
    (hc : b.connectOk = true) (hl : b.login = CmdResult.ok) (hs : b.select = CmdResult.ok) :
    (copy_emails b uids dest).1 = Except.ok (copyRes b uids dest) ∧
    (copyRes b uids dest).copied_count + (copyRes b uids dest).failed_uids.length = uids.length ∧
    (copyRes b uids dest).success = (copyRes b uids dest).failed_uids.isEmpty ∧
    (copyRes b uids dest).copied_count =
      (List.filter (fun u => decide (b.copyResp u = CmdResult.ok)) uids).length := by
  refine ⟨?_, ?_, rfl, ?_⟩
  · simp [copy_emails, hc, hl, hs]
  · simpa [copyRes] using copyLoop_count b dest uids
  · simpa [copyRes] using copyLoop_copied_filter b dest uids

theorem c1_witness :
    (copy_emails sampleBehavior ["123", "456"] "Archive").1 =
      Except.ok (copyRes sampleBehavior ["123", "456"] "Archive") ∧
    (copyRes sampleBehavior ["123", "456"] "Archive").copied_count +
      (copyRes sampleBehavior ["123", "456"] "Archive").failed_uids.length =
      (["123", "456"] : List String).length ∧
    (copyRes sampleBehavior ["123", "456"] "Archive").success =
      (copyRes sampleBehavior ["123", "456"] "Archive").failed_uids.isEmpty ∧
    (copyRes sampleBehavior ["123", "456"] "Archive").copied_count =
      (List.filter (fun u => decide (sampleBehavior.copyResp u = CmdResult.ok))
        ["123", "456"]).length :=
  c1_copy_count_invariant sampleBehavior ["123", "456"] "Archive" rfl rfl rfl

/-- C2: a rejected or raising per-UID command in `copy_emails` or
`move_emails` never propagates as an exception and does not stop the
batch: the call still returns an `EmailOperationResult`, with `success =
false`, the failed UID recorded in `failed_uids`, and a message whose
text contains "<n> failed" for the failure count `n`. -/
theorem c2_item_failure_handling (b : ServerBehavior) (uids : List String)
    (dest uid : String) (hc : b.connectOk = true) (hl : b.login = CmdResult.ok)
    (hs : b.select = CmdResult.ok) (hmem : uid ∈ uids) :
    (b.copyResp uid ≠ CmdResult.ok →
      (copy_emails b uids dest).1 = Except.ok (copyRes b uids dest) ∧
      (copyRes b uids dest).success = false ∧
      uid ∈ (copyRes b uids dest).failed_uids ∧
      containsSub (copyRes b uids dest).message.data
        (toString (copyRes b uids dest).failed_uids.length ++ " failed").data = true) ∧
    ((move_single_email b uid dest).1 = false →
      (move_emails b uids dest).1 = Except.ok (moveRes b uids dest) ∧
      (moveRes b uids dest).success = false ∧
      uid ∈ (moveRes b uids dest).failed_uids ∧
      containsSub (moveRes b uids dest).message.data
        (toString (moveRes b uids dest).failed_uids.length ++ " failed").data = true) := by
  constructor
  · intro hfail
    have hm := copyLoop_failed_mem b dest uid uids hmem hfail
    refine ⟨by simp [copy_emails, hc, hl, hs], ?_, hm, ?_⟩
    · simpa [copyRes] using isEmpty_false_of_mem hm
    · exact copyMessage_failed_contains _ _ (length_ne_zero_of_mem hm)
  · intro hfail
    have hm := moveLoop_failed_mem b dest uid uids hmem hfail
    refine ⟨by simp [move_emails, hc, hl, hs], ?_, hm, ?_⟩
    · simpa [moveRes] using isEmpty_false_of_mem hm
    · exact moveMessage_failed_contains _ _ (length_ne_zero_of_mem hm)

theorem c2_witness :
    ((copy_emails partialBehavior ["123", "456"] "Archive").1 =
        Except.ok (copyRes partialBehavior ["123", "456"] "Archive") ∧
      (copyRes partialBehavior ["123", "456"] "Archive").success = false ∧
      "456" ∈ (copyRes partialBehavior ["123", "456"] "Archive").failed_uids ∧
      containsSub (copyRes partialBehavior ["123", "456"] "Archive").message.data
        (toString (copyRes partialBehavior ["123", "456"] "Archive").failed_uids.length ++
          " failed").data = true) ∧
    ((move_emails partialBehavior ["123", "456"] "Archive").1 =
        Except.ok (moveRes partialBehavior ["123", "456"] "Archive") ∧
      (moveRes partialBehavior ["123", "456"] "Archive").success = false ∧
      "456" ∈ (moveRes partialBehavior ["123", "456"] "Archive").failed_uids ∧
      containsSub (moveRes partialBehavior ["123", "456"] "Archive").message.data
        (toString (moveRes partialBehavior ["123", "456"] "Archive").failed_uids.length ++
          " failed").data = true) :=
  ⟨(c2_item_failure_handling partialBehavior ["123", "456"] "Archive" "456"
      rfl rfl rfl (by decide)).1 (by decide),
   (c2_item_failure_handling partialBehavior ["123", "456"] "Archive" "456"
      rfl rfl rfl (by decide)).2 (by decide)⟩

/-- C3: every invocation of `move_emails` that reaches per-item
processing issues exactly one `expunge`, and issues it only after every
UID in the list has been processed: the trace decomposes as the session
header, then the per-UID command block (which contains the MOVE attempt of every UID
attempt and no `expunge`), then the single `expunge`, then `logout` —
with no hypothesis on the per-UID replies, so in particular also when
every UID was handled by the native MOVE command. -/
theorem c3_move_expunge_once (b : ServerBehavior) (uids : List String) (dest : String)
    (hc : b.connectOk = true) (hl : b.login = CmdResult.ok) (hs : b.select = CmdResult.ok) :
    (move_emails b uids dest).2.count Cmd.expunge = 1 ∧
    (move_emails b uids dest).2 =
      Cmd.login :: Cmd.select "INBOX" ::
        ((moveLoop b dest uids).2.2 ++ [Cmd.expunge, Cmd.logout]) ∧
    Cmd.expunge ∉ (moveLoop b dest uids).2.2 ∧
    ∀ uid ∈ uids, Cmd.uidMove uid dest ∈ (moveLoop b dest uids).2.2 := by
  have htr : (move_emails b uids dest).2 =
      Cmd.login :: Cmd.select "INBOX" ::
        ((moveLoop b dest uids).2.2 ++ [Cmd.expunge, Cmd.logout]) := by
    simp [move_emails, hc, hl, hs]
  refine ⟨?_, htr, expunge_not_mem_moveLoop b dest uids,
    fun uid h => uidMove_mem_moveLoop b dest uid uids h⟩
  rw [htr]
  rw [List.count_cons_of_ne (by simp), List.count_cons_of_ne (by simp), List.count_append]
  rw [List.count_eq_zero.mpr (expunge_not_mem_moveLoop b dest uids)]
  simp

theorem c3_witness :
    (move_emails sampleBehavior ["123", "456"] "Archive").2.count Cmd.expunge = 1 ∧
    Cmd.uidMove "123" "Archive" ∈ (moveLoop sampleBehavior "Archive" ["123", "456"]).2.2 :=
  ⟨(c3_move_expunge_once sampleBehavior ["123", "456"] "Archive" rfl rfl rfl).1,
   (c3_move_expunge_once sampleBehavior ["123", "456"] "Archive" rfl rfl rfl).2.2.2
     "123" (by decide)⟩

/-- C4: for a UID whose MOVE command raises, the outcome is decided by
the copy-plus-flag fallback (the UID is moved exactly when both the copy
and the store of the deletion flag are accepted), and the fallback
commands occur in the fixed order copy-then-store, every command issued
for the UID is scoped to that single UID, and a `move_emails` call on
that UID routes through exactly these commands. -/
theorem c4_fallback_order (b : ServerBehavior) (uid dest : String)
    (hc : b.connectOk = true) (hl : b.login = CmdResult.ok) (hs : b.select = CmdResult.ok)
    (hraise : b.moveResp uid = CmdResult.raised) :
    ((move_single_email b uid dest).1 = true ↔
      (b.copyResp uid = CmdResult.ok ∧ b.storeResp uid = CmdResult.ok)) ∧
    (move_single_email b uid dest).2 =
      Cmd.uidMove uid dest :: Cmd.uidCopy uid dest ::
        (if b.copyResp uid = CmdResult.ok
         then [Cmd.uidStore uid "+FLAGS.SILENT" "\\Deleted"] else []) ∧
    ((move_single_email b uid dest).2.all
      (fun c => decide (cmdUid c = some uid))) = true ∧
    (move_emails b [uid] dest).2 =
      Cmd.login :: Cmd.select "INBOX" ::
        ((move_single_email b uid dest).2 ++ [Cmd.expunge, Cmd.logout]) := by
  have hne : b.moveResp uid ≠ CmdResult.ok := by rw [hraise]; intro h; cases h
  refine ⟨?_, ?_, ?_, ?_⟩
  · by_cases hcp : b.copyResp uid = CmdResult.ok
    · by_cases hst : b.storeResp uid = CmdResult.ok <;>
        simp [move_single_email, hne, hcp, hst]
    · simp [move_single_email, hne, hcp]
  · by_cases hcp : b.copyResp uid = CmdResult.ok <;>
      simp [move_single_email, hne, hcp]
  · by_cases hcp : b.copyResp uid = CmdResult.ok <;>
      simp [move_single_email, hne, hcp, cmdUid]
  · simp only [move_emails, hc, hl, hs, if_true, moveLoop]
    simp only [List.append_nil]
    congr 2
    split <;> rfl

theorem c4_witness :
    ((move_single_email fallbackBehavior "123" "Archive").1 = true ↔
      (fallbackBehavior.copyResp "123" = CmdResult.ok ∧
        fallbackBehavior.storeResp "123" = CmdResult.ok)) ∧
    (move_single_email fallbackBehavior "123" "Archive").2 =
      Cmd.uidMove "123" "Archive" :: Cmd.uidCopy "123" "Archive" ::
        (if fallbackBehavior.copyResp "123" = CmdResult.ok
         then [Cmd.uidStore "123" "+FLAGS.SILENT" "\\Deleted"] else []) :=
  ⟨(c4_fallback_order fallbackBehavior "123" "Archive" rfl rfl rfl rfl).1,
   (c4_fallback_order fallbackBehavior "123" "Archive" rfl rfl rfl rfl).2.1⟩

theorem list_folders_logout_count (b : ServerBehavior) (hc : b.connectOk = true) :
    (list_folders b).2.count Cmd.logout = 1 := by
  by_cases hl : b.login = CmdResult.ok
  · by_cases hlist : b.listStatus = CmdResult.ok <;>
      simp [list_folders, hc, hl, hlist, List.count_cons, List.count_nil]
  · simp [list_folders, hc, hl, List.count_cons, List.count_nil]

theorem create_folder_logout_count (b : ServerBehavior) (name : String)
    (hc : b.connectOk = true) :
    (create_folder b name).2.count Cmd.logout = 1 := by
  by_cases hl : b.login = CmdResult.ok
  · by_cases hcr : b.create = CmdResult.ok
    · simp [create_folder, hc, hl, hcr, List.count_cons, List.count_nil]
    · by_cases hcr2 : b.create = CmdResult.no <;>
        simp [create_folder, hc, hl, hcr, hcr2, List.count_cons, List.count_nil]
  · simp [create_folder, hc, hl, List.count_cons, List.count_nil]

theorem copy_emails_logout_count (b : ServerBehavior) (uids : List String) (dest : String)
    (hc : b.connectOk = true) :
    (copy_emails b uids dest).2.count Cmd.logout = 1 := by
  by_cases hl : b.login = CmdResult.ok
  · by_cases hs : b.select = CmdResult.ok
    · simp only [copy_emails, hc, hl, hs, if_true]
      rw [List.count_cons_of_ne (by simp), List.count_cons_of_ne (by simp),
        List.count_append,
        List.count_eq_zero.mpr (logout_not_mem_copyLoop b dest uids)]
      simp
    · simp [copy_emails, hc, hl, hs, List.count_cons, List.count_nil]
  · simp [copy_emails, hc, hl, List.count_cons, List.count_nil]

theorem move_emails_logout_count (b : ServerBehavior) (uids : List String) (dest : String)
    (hc : b.connectOk = true) :
    (move_emails b uids dest).2.count Cmd.logout = 1 := by
  by_cases hl : b.login = CmdResult.ok
  · by_cases hs : b.select = CmdResult.ok
    · simp only [move_emails, hc, hl, hs, if_true]
      rw [List.count_cons_of_ne (by simp), List.count_cons_of_ne (by simp),
        List.count_append,
        List.count_eq_zero.mpr (logout_not_mem_moveLoop b dest uids)]
      simp
    · simp [move_emails, hc, hl, hs, List.count_cons, List.count_nil]
  · simp [move_emails, hc, hl, List.count_cons, List.count_nil]

/-- C7: every session-scoped operation (`list_folders`, `create_folder`,
`copy_emails`, `move_emails`) that establishes its connection tears the
session down with exactly one `logout`, on every exit path, whether the
body succeeded, recorded per-item failures, or aborted with an error,
so no connection is leaked. -/
theorem c7_logout_exactly_once (b : ServerBehavior) (uids : List String)
    (dest name : String) (hc : b.connectOk = true) :
    (list_folders b).2.count Cmd.logout = 1 ∧
    (create_folder b name).2.count Cmd.logout = 1 ∧
    (copy_emails b uids dest).2.count Cmd.logout = 1 ∧
    (move_emails b uids dest).2.count Cmd.logout = 1 :=
  ⟨list_folders_logout_count b hc, create_folder_logout_count b name hc,
   copy_emails_logout_count b uids dest hc, move_emails_logout_count b uids dest hc⟩

theorem c7_witness :
    (list_folders partialBehavior).2.count Cmd.logout = 1 ∧
    (create_folder partialBehavior "Test Folder").2.count Cmd.logout = 1 ∧
    (copy_emails partialBehavior ["123", "456"] "Archive").2.count Cmd.logout = 1 ∧
    (move_emails partialBehavior ["123", "456"] "Archive").2.count Cmd.logout = 1 :=
  c7_logout_exactly_once partialBehavior ["123", "456"] "Archive" "Test Folder" rfl

/-- C8: `create_folder` reports a rejected creation as a boolean result
rather than an error: an accepted reply yields `true`, a rejected reply
(`NO`) yields `false`, and the session is closed (exactly one `logout`)
regardless of the reply. -/
theorem c8_create_folder_bool (b : ServerBehavior) (name : String)
    (hc : b.connectOk = true) (hl : b.login = CmdResult.ok) :
    (b.create = CmdResult.ok → (create_folder b name).1 = Except.ok true) ∧
    (b.create = CmdResult.no → (create_folder b name).1 = Except.ok false) ∧
    (create_folder b name).2.count Cmd.logout = 1 := by
  refine ⟨fun hcr => by simp [create_folder, hc, hl, hcr],
    fun hcr => by simp [create_folder, hc, hl, hcr], ?_⟩
  exact create_folder_logout_count b name hc

theorem c8_witness :
    (create_folder sampleBehavior "Test Folder").1 = Except.ok true ∧
    (create_folder partialBehavior "Invalid/Folder").1 = Except.ok false ∧
    (create_folder sampleBehavior "Test Folder").2.count Cmd.logout = 1 :=
  ⟨(c8_create_folder_bool sampleBehavior "Test Folder" rfl rfl).1 rfl,
   (c8_create_folder_bool partialBehavior "Invalid/Folder" rfl rfl).2.1 rfl,
   (c8_create_folder_bool sampleBehavior "Test Folder" rfl rfl).2.2⟩

/-- C9: `list_folders` parses each server reply line into a `FolderInfo`
with the name unquoted and the delimiter and flags extracted from the
structured reply: on the reply lines `(\HasNoChildren) "." "INBOX"` and
`(\HasNoChildren) "." "INBOX.Sent"` the result has 2 entries and entry 1
has name "INBOX", delimiter "." and flags containing "HasNoChildren". -/
theorem c9_list_folders_parsing :
    foldersOf (list_folders sampleListBehavior).1 =
      [{ name := "INBOX", delimiter := ".", flags := ["HasNoChildren"] },
       { name := "INBOX.Sent", delimiter := ".", flags := ["HasNoChildren"] }] ∧
    (foldersOf (list_folders sampleListBehavior).1).length = 2 ∧
    ((foldersOf (list_folders sampleListBehavior).1).getD 0 emptyFolder).name = "INBOX" ∧
    ((foldersOf (list_folders sampleListBehavior).1).getD 0 emptyFolder).delimiter = "." ∧
    "HasNoChildren" ∈
      ((foldersOf (list_folders sampleListBehavior).1).getD 0 emptyFolder).flags := by
  refine ⟨by decide, by decide, by decide, by decide, by decide⟩

/-- C5: `get_emails(page=1, page_size=10)` against a backing set with N
messages matching the filters returns exactly `min(10, N)` items and
`total = N`; and in every returned `EmailPageResponse`,
`emails.length ≤ page_size` while `total` is the full filtered count
even when it exceeds `page_size`. -/
theorem c5_get_emails_pagination (store : List EmailData) (q : PageQuery) :
    (get_emails store q).emails.length ≤ q.page_size ∧
    (get_emails store q).total = (List.filter (matchesFilter q) store).length ∧
    (q.page = 1 → q.page_size = 10 →
      (get_emails store q).emails.length =
        min 10 (List.filter (matchesFilter q) store).length) := by
  refine ⟨?_, ?_, ?_⟩
  · simp only [get_emails, List.length_take]
    exact min_le_left _ _
  · simp [get_emails, length_streamMessages]
  · intro h1 h2
    simp only [get_emails, h1, h2, Nat.sub_self, Nat.zero_mul, List.drop_zero,
      List.length_take, length_streamMessages]

theorem c5_witness :
    (get_emails sampleStore defaultQuery).emails.length ≤ defaultQuery.page_size ∧
    (get_emails sampleStore defaultQuery).total =
      (List.filter (matchesFilter defaultQuery) sampleStore).length ∧
    (get_emails sampleStore defaultQuery).emails.length =
      min 10 (List.filter (matchesFilter defaultQuery) sampleStore).length :=
  ⟨(c5_get_emails_pagination sampleStore defaultQuery).1,
   (c5_get_emails_pagination sampleStore defaultQuery).2.1,
   (c5_get_emails_pagination sampleStore defaultQuery).2.2 rfl rfl⟩

/-- C6 counterexample: two `get_emails` calls differing only in the sort
order produce identical `EmailPageResponse` values, so the sort-order
parameter (and likewise the sender/recipient filters) is not reproduced
in the returned result — `EmailPageResponse` has no field for it. -/
theorem c6_echo_counterexample :
    qAsc ≠ qDesc ∧ get_emails [sampleEmailA] qAsc = get_emails [sampleEmailA] qDesc := by
  exact ⟨by decide, by decide⟩

/-- C6 (amended): every `EmailPageResponse` returned by `get_emails`
echoes the page number, page size, before/after bounds (the `after`
bound in the `since` field), and the subject/body/text filters of the
call that produced it, alongside the emails and total; the
sender/recipient filters and the sort order are not part of the
response model and are not reproduced. -/
theorem c6_response_echo (store : List EmailData) (q : PageQuery) :
    (get_emails store q).page = q.page ∧
    (get_emails store q).page_size = q.page_size ∧
    (get_emails store q).before = q.before ∧
    (get_emails store q).since = q.after ∧
    (get_emails store q).subject = q.subject ∧
    (get_emails store q).body = q.body ∧
    (get_emails store q).text = q.text :=
  ⟨rfl, rfl, rfl, rfl, rfl, rfl, rfl⟩

/-- C10: the two count fields of `EmailOperationResult` are mutually
exclusive by operation: a result returned by `copy_emails` has
`moved_count = 0` and a result returned by `move_emails` has
`copied_count = 0`; and in the model both count fields and `failed_uids`
default to zero / empty. -/
theorem c10_counts_exclusive (b : ServerBehavior) (uids : List String) (dest : String)
    (s : Bool) (m : String) (hc : b.connectOk = true) (hl : b.login = CmdResult.ok)
    (hs : b.select = CmdResult.ok) :
    (copy_emails b uids dest).1 = Except.ok (copyRes b uids dest) ∧
    (copyRes b uids dest).moved_count = 0 ∧
    (move_emails b uids dest).1 = Except.ok (moveRes b uids dest) ∧
    (moveRes b uids dest).copied_count = 0 ∧
    ({ success := s, message := m : EmailOperationResult }).moved_count = 0 ∧
    ({ success := s, message := m : EmailOperationResult }).copied_count = 0 ∧
    ({ success := s, message := m : EmailOperationResult }).failed_uids = [] := by
  exact ⟨by simp [copy_emails, hc, hl, hs], rfl, by simp [move_emails, hc, hl, hs],
    rfl, rfl, rfl, rfl⟩

theorem c10_witness :
    (copy_emails sampleBehavior ["123", "456"] "Archive").1 =
      Except.ok (copyRes sampleBehavior ["123", "456"] "Archive") ∧
    (copyRes sampleBehavior ["123", "456"] "Archive").moved_count = 0 ∧
    (move_emails sampleBehavior ["123", "456"] "Archive").1 =
      Except.ok (moveRes sampleBehavior ["123", "456"] "Archive") ∧
    (moveRes sampleBehavior ["123", "456"] "Archive").copied_count = 0 ∧
    ({ success := true, message := "ok" : EmailOperationResult }).moved_count = 0 ∧
    ({ success := true, message := "ok" : EmailOperationResult }).copied_count = 0 ∧
    ({ success := true, message := "ok" : EmailOperationResult }).failed_uids = [] :=
  c10_counts_exclusive sampleBehavior ["123", "456"] "Archive" true "ok" rfl rfl rfl
